import Mathlib

/-!
Verification of the redis-bus messaging layer (redisbus package).

The definitions below are a shallow embedding of `src/redisbus/client.py`,
`src/redisbus/worker.py` and `src/redisbus/rb_queue.py`.  Redis lists are
modelled as Lean lists (index 0 = left end, RPUSH appends on the right),
JSON wire elements as an inductive that either decodes to an envelope or is
malformed, and each Python function is translated into a Lean function that
returns the pushes / key-expiries / log lines it performs.
-/

namespace RedisBus

/-- A Python value as it appears in envelope payloads.  The `gen` and
`genRaising` constructors model generator objects (`types.GeneratorType`):
`gen` yields its elements then stops, `genRaising` yields its elements then
raises an exception with the given message. -/
inductive PyValue where
  | none
  | bool (b : Bool)
  | int (n : Int)
  | str (s : String)
  | list (xs : List PyValue)
  | tuple (xs : List PyValue)
  | dict (fields : List (String × PyValue))
  | gen (elems : List PyValue)
  | genRaising (elems : List PyValue) (excMsg : String)

/-- `isinstance(data, types.GeneratorType)` from `client.py`. -/
def PyValue.isGenerator : PyValue → Bool
  | .gen _ => true
  | .genRaising _ _ => true
  | _ => false

/-- A wire envelope (the JSON dict pushed/published on the bus), with the
single-letter field names of `worker.py`'s `Message` constants:
`x` command, `i` origin id, `c` correlation, `d` data, `z` stream counter. -/
structure Envelope where
  x : Option String := Option.none
  i : String
  c : String
  d : PyValue
  z : Option Int := Option.none

/-- The single quote character (used in the worker's error message formats). -/
def sq : String := String.singleton (Char.ofNat 39)

/-! ## Client.reply (client.py lines 93-119) -/

/-- Effect of one `Client.reply` call: the name of the reply queue, the
envelopes pushed onto it in order, and the TTL set on it afterwards. -/
structure ReplyEffect where
  key : String
  pushed : List Envelope
  ttlSet : Nat

/-- The `for element in data:` loop of `Client.reply` in the generator case:
pushes one envelope per element carrying the running counter `count`, and
returns the final value of `count`. -/
def Client.replyStreamLoop (src_id correlation : String) :
    List PyValue → Nat → List Envelope × Nat
  | [], count => ([], count)
  | e :: rest, count =>
      let r := Client.replyStreamLoop src_id correlation rest (count + 1)
      ({ i := src_id, c := correlation, d := e, z := some (count : Int) } :: r.1, r.2)

/-- The failure message built by `Client.reply` when iterating the payload
raises (`client.py` line 111). -/
def Client.replyExcMsg (correlation excMsg : String) : String :=
  "An exception occurred while replying to correlation " ++ correlation ++ " - " ++ excMsg

/-- `Client.reply(src_id, correlation, data)`: generator payloads are
streamed (one envelope per element with counter `z`, then a `z = -1`
terminator with null data, then `expire(max(command_ttl*count, 300))`);
if iteration raises, a failure envelope replaces the terminator and the TTL
is `command_ttl`; non-generator payloads are pushed as one single-shot
envelope with TTL `command_ttl`. -/
def Client.reply (command_ttl : Nat) (src_id correlation : String) (data : PyValue) :
    ReplyEffect :=
  let key := "reply:" ++ correlation
  match data with
  | .gen elems =>
      let r := Client.replyStreamLoop src_id correlation elems 0
      { key := key
      , pushed := r.1 ++
          [{ i := src_id, c := correlation, d := .none, z := some (-1) }]
      , ttlSet := max (command_ttl * r.2) 300 }
  | .genRaising elems excMsg =>
      let r := Client.replyStreamLoop src_id correlation elems 0
      let statusMsg := Client.replyExcMsg correlation excMsg
      { key := key
      , pushed := r.1 ++
          [{ i := src_id, c := correlation
           , d := .dict [("success", .bool false), ("msg", .str statusMsg)] }]
      , ttlSet := command_ttl }
  | d =>
      { key := key
      , pushed := [{ i := src_id, c := correlation, d := d }]
      , ttlSet := command_ttl }

/-! ## Wire elements and JSON decoding -/

/-- A raw element on a Redis list or pub/sub channel: either valid JSON
encoding an envelope, or a malformed payload (on which `json.loads`
raises). -/
inductive Wire where
  | valid (e : Envelope)
  | malformed (s : String)

/-- `json.loads` on a wire element: `some` envelope on success, `none`
when the parse raises. -/
def decodeWire : Wire → Option Envelope
  | .valid e => some e
  | .malformed _ => Option.none

/-! ## Queue (rb_queue.py lines 49-94) -/

/-- `Queue.push`: RPUSH appends the element on the right of the list
(index 0 is the left end). -/
def Queue.push (l : List Wire) (v : Wire) : List Wire := l ++ [v]

/-- What the underlying Redis pop call produced in one `Queue.pop`:
the call raised, returned nothing, or returned one raw element. -/
inductive PopRaw where
  | transportError
  | nothing
  | item (w : Wire)

/-- `Queue.pop`: a transport failure sets `active` to false and yields
null; a decode failure is logged, swallowed to null, and leaves `active`
unchanged.  Returns the decoded envelope (or null) and the `active` flag
after the call. -/
def Queue.pop (active : Bool) (raw : PopRaw) : Option Envelope × Bool :=
  match raw with
  | .transportError => (Option.none, false)
  | .nothing => (Option.none, active)
  | .item w =>
      match decodeWire w with
      | some e => (some e, active)
      | Option.none => (Option.none, active)

/-- Redis LTRIM: keep the elements whose (0-based) index lies in
`[start, stop]`, negative indices counting from the right end. -/
def Queue.ltrim {α : Type} (l : List α) (start stop : Int) : List α :=
  let n : Int := l.length
  let s := if start < 0 then n + start else start
  let e := if stop < 0 then n + stop else stop
  (l.enum.filter (fun p => decide (s ≤ (p.1 : Int)) && decide ((p.1 : Int) ≤ e))).map
    Prod.snd

/-- `Queue.clear` (rb_queue.py line 94): a single `ltrim(name, 0, 0)`. -/
def Queue.clear {α : Type} (l : List α) : List α := Queue.ltrim l 0 0

/-! ## Monitor (rb_queue.py lines 97-142) -/

/-- One BRPOP against a list: takes the rightmost element, returning it and
the remaining list; null on an empty list. -/
def Monitor.brpop (l : List Wire) : Option (Wire × List Wire) :=
  match l.getLast? with
  | Option.none => Option.none
  | some w => some (w, l.dropLast)

/-- Repeated BRPOP until the list is empty (fuel-indexed; the fuel is the
initial length, enough to drain everything).  Yields the elements in the
order the Monitor thread receives them. -/
def Monitor.drainAux : Nat → List Wire → List Wire
  | 0, _ => []
  | fuel + 1, l =>
      match Monitor.brpop l with
      | Option.none => []
      | some pr => pr.1 :: Monitor.drainAux fuel pr.2

/-- The order in which `Monitor.thread` receives the elements of one
monitored list when no new pushes arrive. -/
def Monitor.drainOrder (l : List Wire) : List Wire := Monitor.drainAux l.length l

/-- The body of `Monitor.thread` applied to the received elements in order:
`json.loads` is called with no exception handler, so the first malformed
element raises and terminates the thread.  Returns the envelopes placed on
the output queue before any failure, and `some` error message if the thread
died. -/
def Monitor.threadDecode : List Wire → List Envelope × Option String
  | [] => ([], Option.none)
  | w :: rest =>
      match decodeWire w with
      | some e =>
          let r := Monitor.threadDecode rest
          (e :: r.1, r.2)
      | Option.none => ([], some "JSONDecodeError")

/-- `Monitor.thread` on one monitored list: drain in BRPOP order, decode
each element. -/
def Monitor.thread (l : List Wire) : List Envelope × Option String :=
  Monitor.threadDecode (Monitor.drainOrder l)

/-! ## Worker.read_broadcast_messages (worker.py lines 298-313) -/

/-- A message delivered by the pub/sub connection. -/
structure PubSubMsg where
  type : String
  channel : String
  data : Wire

/-- `Worker.read_broadcast_messages`: loop over pending pub/sub messages;
skip subscribe notifications; for a `message` on the broadcast channel,
decode and dispatch it; a decode failure is logged and re-raised, ending
the loop.  Returns the envelopes dispatched to `process_message` in order,
and `some` error if a decode failure was raised. -/
def Worker.read_broadcast_messages (bkey : String) :
    List PubSubMsg → List Envelope × Option String
  | [] => ([], Option.none)
  | m :: rest =>
      if m.type = "subscribe" then Worker.read_broadcast_messages bkey rest
      else if m.type = "message" ∧ m.channel = bkey then
        match decodeWire m.data with
        | some e =>
            let r := Worker.read_broadcast_messages bkey rest
            (e :: r.1, r.2)
        | Option.none => ([], some "JSONDecodeError")
      else Worker.read_broadcast_messages bkey rest

/-! ## perform_rpc reply-collection loop (client.py lines 150-171) -/

/-- What one `reply_queue.pop(wait=1)` of the collection loop produced. -/
inductive PopEvent where
  | delivered (env : Envelope)
  | empty (deadlineReached : Bool)

/-- `stream_count is not None and stream_count >= 0` (client.py line 162):
the delivered envelope announces more stream elements to come. -/
def isStreamContinue (env : Envelope) : Bool :=
  match env.z with
  | some z => decide (0 ≤ z)
  | Option.none => false

/-- One iteration of the collection loop.  `Sum.inl f` means the loop
breaks with final reply count `f`; `Sum.inr rc` means it continues with
reply count `rc`.  On a delivered envelope the count is incremented; a
`z ≥ 0` envelope explicitly continues, skipping both checks; otherwise the
wait-count check runs.  On an empty pop the deadline check runs first,
then the wait-count check. -/
def rpcIter (wait_count : Option Nat) (rc : Nat) (e : PopEvent) : Sum Nat Nat :=
  match e with
  | .delivered env =>
      let rc := rc + 1
      if isStreamContinue env then Sum.inr rc
      else if wait_count = some rc then Sum.inl rc
      else Sum.inr rc
  | .empty deadlineReached =>
      if deadlineReached then Sum.inl rc
      else if wait_count = some rc then Sum.inl rc
      else Sum.inr rc

/-- Outcome of running the collection loop against a finite trace of pop
results: `finished` when a break was executed, `pending` when the trace is
exhausted with the loop still running (it would pop again). -/
inductive RpcOutcome where
  | finished (replyCount : Nat)
  | pending (replyCount : Nat)
deriving DecidableEq

/-- The collection loop of `perform_rpc` over a trace of pop results. -/
def rpcLoop (wait_count : Option Nat) : List PopEvent → Nat → RpcOutcome
  | [], rc => .pending rc
  | e :: rest, rc =>
      match rpcIter wait_count rc e with
      | Sum.inl final => .finished final
      | Sum.inr rc' => rpcLoop wait_count rest rc'

/-! ## CommandContext and Worker.process_message (worker.py lines 48-73, 389-416) -/

/-- One call a handler makes on its `CommandContext`. -/
inductive ReplyCall where
  | reply (data : PyValue)
  | replySuccess (msg : String) (kwargs : List (String × PyValue))
  | replyFailure (msg : String)

/-- Python `dict.update`: existing keys are overwritten in place, new keys
are appended in order. -/
def dictUpdate (base extra : List (String × PyValue)) :
    List (String × PyValue) :=
  (base.map fun kv =>
    match extra.find? (fun kv2 => kv2.1 = kv.1) with
    | some kv2 => (kv.1, kv2.2)
    | Option.none => kv) ++
  extra.filter (fun kv2 => !(base.any (fun kv => kv.1 = kv2.1)))

/-- The payload each `CommandContext.reply*` method passes to
`Client.reply`: `reply` forwards its data; `reply_success` builds
`dict(success=True, msg=msg)` updated with the keyword arguments;
`reply_failure` builds `dict(success=False, msg=msg)`. -/
def CommandContext.replyPayload : ReplyCall → PyValue
  | .reply d => d
  | .replySuccess msg kwargs =>
      .dict (dictUpdate [("success", .bool true), ("msg", .str msg)] kwargs)
  | .replyFailure msg =>
      .dict [("success", .bool false), ("msg", .str msg)]

/-- Behaviour of one handler invocation: the `reply*` calls it completed
in order, and `some` exception message if it then raised. -/
structure HandlerRun where
  replies : List ReplyCall
  raises : Option String

/-- Result of `Worker.process_message`: the envelopes pushed onto the
reply queue during the call (handler replies first, then any automatic
reply), the strings passed to `log.error` that the embedding can express,
and the `success` flag the function returns. -/
structure DispatchResult where
  pushes : List Envelope
  logs : List String
  success : Bool

/-- The status message for a missing handler (worker.py line 400):
`Unknown command function "<func_name>" for worker "<class>" (<err>)`,
with single quotes around the two names. -/
def Worker.unknownCommandMsg (funcName clsName attrErrMsg : String) : String :=
  "Unknown command function " ++ sq ++ funcName ++ sq ++ " for worker " ++ sq ++
    clsName ++ sq ++ " (" ++ attrErrMsg ++ ")"

/-- The status message for a handler exception (worker.py line 404). -/
def Worker.execExceptionMsg (funcName clsName excMsg : String) : String :=
  "An exception occurred while executing command function " ++ sq ++ funcName ++
    sq ++ " for worker " ++ sq ++ clsName ++ sq ++ "  - " ++ excMsg

/-- The envelopes pushed by the handler's own `reply*` calls, in order. -/
def handlerPushes (command_ttl : Nat) (workerId corr : String)
    (replies : List ReplyCall) : List Envelope :=
  (replies.map fun rc =>
    (Client.reply command_ttl workerId corr (CommandContext.replyPayload rc)).pushed).flatten

/-- `Worker.process_message` over one envelope that carries command `cmd`
and correlation `corr`.  `handlers` is the method table (`getattr` on
`cmd_<x>` names), `clsName` the worker class name, `attrErrMsg` the text of
the `AttributeError`.  If no handler exists or the handler raises, and the
handler has not replied, a failure reply with the status message is pushed;
if the handler returns without replying, an automatic success reply
`dict(success=True, msg="OK")` is pushed. -/
def Worker.process_message (handlers : String → Option HandlerRun)
    (clsName attrErrMsg : String) (command_ttl : Nat) (workerId : String)
    (cmd corr : String) : DispatchResult :=
  let funcName := "cmd_" ++ cmd
  match handlers funcName with
  | Option.none =>
      let statusMsg := Worker.unknownCommandMsg funcName clsName attrErrMsg
      let eff := Client.reply command_ttl workerId corr
        (CommandContext.replyPayload (.replyFailure statusMsg))
      { pushes := eff.pushed, logs := [statusMsg], success := false }
  | some run =>
      let hp := handlerPushes command_ttl workerId corr run.replies
      let didReply := !run.replies.isEmpty
      match run.raises with
      | some excMsg =>
          let statusMsg := Worker.execExceptionMsg funcName clsName excMsg
          if didReply then
            { pushes := hp, logs := [statusMsg], success := false }
          else
            let eff := Client.reply command_ttl workerId corr
              (CommandContext.replyPayload (.replyFailure statusMsg))
            { pushes := hp ++ eff.pushed, logs := [statusMsg], success := false }
      | Option.none =>
          if didReply then
            { pushes := hp, logs := [], success := true }
          else
            let eff := Client.reply command_ttl workerId corr
              (CommandContext.replyPayload (.replySuccess "OK" []))
            { pushes := hp ++ eff.pushed, logs := [], success := true }

/-! ## Client request modes (client.py lines 56-91) -/

/-- Effect of one request-issuing call: the RPUSH operations (key and
envelope), the EXPIRE operations, the PUBLISH operations, the reply queue
name returned, and the `wait_count` returned. -/
structure CallEffect where
  pushes : List (String × Envelope)
  expires : List (String × Nat)
  publishes : List (String × Envelope)
  replyKey : String
  waitCount : Option Nat

/-- `Client.call`: push one request envelope onto `key`, set the key TTL,
return the reply queue for the correlation id and a wait count of 1. -/
def Client.call (command_ttl : Nat) (src_id key cmd : String) (data : PyValue)
    (cid : String) : CallEffect :=
  { pushes := [(key, { x := some cmd, i := src_id, c := cid, d := data })]
  , expires := [(key, command_ttl)]
  , publishes := []
  , replyKey := "reply:" ++ cid
  , waitCount := some 1 }

/-- `Client.call_direct`: `Client.call` on `direct:<dst_id>`. -/
def Client.call_direct (command_ttl : Nat) (src_id dst_id cmd : String)
    (data : PyValue) (cid : String) : CallEffect :=
  Client.call command_ttl src_id ("direct:" ++ dst_id) cmd data cid

/-- `Client.call_group`: `Client.call` on `group:<site>:<worker_type>`. -/
def Client.call_group (command_ttl : Nat) (src_id site worker_type cmd : String)
    (data : PyValue) (cid : String) : CallEffect :=
  Client.call command_ttl src_id ("group:" ++ site ++ ":" ++ worker_type) cmd data cid

/-- `Client.broadcast`: publish one envelope on `rpc:worker:<site>` and
return the reply queue with an unknown (`None`) wait count. -/
def Client.broadcast (site src_id cmd : String) (data : PyValue) (cid : String) :
    CallEffect :=
  { pushes := []
  , expires := []
  , publishes := [("rpc:worker:" ++ site,
      { x := some cmd, i := src_id, c := cid, d := data })]
  , replyKey := "reply:" ++ cid
  , waitCount := Option.none }

/-- `direct:<worker_id>` recovered from a presence key
`worker:<site>:<type>:<worker_id>` by dropping the first three
colon-separated fields (client.py line 87). -/
def directKeyOfPresence (key : String) : String :=
  "direct:" ++ String.intercalate ":" ((key.splitOn ":").drop 3)

/-- The `for key in scan_iter(pattern)` loop of `Client.multicast`:
one `Client.call` per matching presence key, all with the same correlation
id, counting the keys.  Returns the accumulated pushes and expires and the
final count. -/
def Client.multicastLoop (command_ttl : Nat) (src_id cmd : String) (data : PyValue)
    (cid : String) :
    List String → Nat → List (String × Envelope) × List (String × Nat) × Nat
  | [], count => ([], [], count)
  | key :: rest, count =>
      let eff := Client.call command_ttl src_id (directKeyOfPresence key) cmd data cid
      let r := Client.multicastLoop command_ttl src_id cmd data cid rest (count + 1)
      (eff.pushes ++ r.1, eff.expires ++ r.2.1, r.2.2)

/-- `Client.multicast`: `scanKeys` is the list of presence keys matching
`worker:<site>:<pattern>` produced by SCAN at call time. -/
def Client.multicast (command_ttl : Nat) (src_id cmd : String) (data : PyValue)
    (cid : String) (scanKeys : List String) : CallEffect :=
  let r := Client.multicastLoop command_ttl src_id cmd data cid scanKeys 0
  { pushes := r.1
  , expires := r.2.1
  , publishes := []
  , replyKey := "reply:" ++ cid
  , waitCount := some r.2.2 }

/-! ## Worker presence keys and lifecycle (worker.py lines 247-263, 331-343) -/

/-- The visible Redis key space: plain string keys and hash fields. -/
structure RedisState where
  strings : String → Option String
  hashes : String → String → Option String

/-- The hash holding the presence index (worker.py line 17). -/
def g_workers_key : String := "workers"

/-- The key string formatted by `remove_worker_info_key` (worker.py
line 333). -/
def Worker.removeKeyString (site typeName id : String) : String :=
  "worker:" ++ site ++ ":" ++ typeName ++ ":" ++ id

/-- The key string formatted by `update_worker_info_key` (worker.py
line 340). -/
def Worker.updateKeyString (site typeName id : String) : String :=
  "worker:" ++ site ++ ":" ++ typeName ++ ":" ++ id

/-- Redis HDEL on one field. -/
def RedisState.hdel (s : RedisState) (hkey field : String) : RedisState :=
  { s with hashes := fun h f =>
      if h = hkey ∧ f = field then Option.none else s.hashes h f }

/-- Redis DEL on one string key. -/
def RedisState.del (s : RedisState) (key : String) : RedisState :=
  { s with strings := fun k => if k = key then Option.none else s.strings k }

/-- Redis HSET on one field. -/
def RedisState.hset (s : RedisState) (hkey field value : String) : RedisState :=
  { s with hashes := fun h f =>
      if h = hkey ∧ f = field then some value else s.hashes h f }

/-- Redis SET with EX on one string key (the TTL itself is not tracked). -/
def RedisState.setKey (s : RedisState) (key value : String) : RedisState :=
  { s with strings := fun k => if k = key then some value else s.strings k }

/-- `Worker.remove_worker_info_key`: HDEL the presence field from `workers`,
then DEL the presence string key, both with the key formatted at
worker.py line 333. -/
def Worker.remove_worker_info_key (site typeName id : String) (s : RedisState) :
    RedisState :=
  let key := Worker.removeKeyString site typeName id
  (s.hdel g_workers_key key).del key

/-- `Worker.update_worker_info_key`: HSET `workers[key] = worker_id` and
SET the presence key to the info document, both with the key formatted at
worker.py line 340. -/
def Worker.update_worker_info_key (site typeName id infoJson : String)
    (s : RedisState) : RedisState :=
  let key := Worker.updateKeyString site typeName id
  (s.hset g_workers_key key id).setKey key infoJson

/-- Worker state visible to the lifecycle model: the `active` flag and the
Redis key space. -/
structure WorkerSt where
  active : Bool
  redis : RedisState

/-- `Worker.cmd_stop` sets `active` to false (the success reply it also
sends is covered by the dispatch model). -/
def Worker.cmd_stop (w : WorkerSt) : WorkerSt := { w with active := false }

/-- The `while self.active and self.queue_monitor.active:` loop, with one
arbitrary tick body and a fuel bound on the number of iterations. -/
def Worker.loopRun (tick : WorkerSt → WorkerSt) : Nat → WorkerSt → WorkerSt
  | 0, w => w
  | fuel + 1, w => if w.active then Worker.loopRun tick fuel (tick w) else w

/-- `Worker.loop`: run the tick loop, then (in the `finally` block)
remove the presence records. -/
def Worker.loop (site typeName id : String) (tick : WorkerSt → WorkerSt)
    (fuel : Nat) (w : WorkerSt) : WorkerSt :=
  let w' := Worker.loopRun tick fuel w
  { w' with redis := Worker.remove_worker_info_key site typeName id w'.redis }

/-- The filtering step of the broadcast read loop: a pub/sub message is
dispatched when it is a `message` on the broadcast channel and decodes. -/
def broadcastFilter (bkey : String) (m : PubSubMsg) : Option Envelope :=
  if m.type = "message" ∧ m.channel = bkey then decodeWire m.data else Option.none

/-- The single RPUSH `Client.multicast` performs for one matching presence
key: onto `direct:<worker_id>`, with the shared correlation id. -/
def multicastPush (src_id cmd : String) (data : PyValue) (cid : String)
    (key : String) : String × Envelope :=
  (directKeyOfPresence key, { x := some cmd, i := src_id, c := cid, d := data })

/-! ## Concrete values used by witness theorems -/

/-- A handler table with a `ping` handler that neither raises nor replies. -/
def demoHandlers : String → Option HandlerRun :=
  fun n => if n = "cmd_ping" then some { replies := [], raises := Option.none }
    else Option.none

/-- A handler table whose `ping` handler raises without replying. -/
def demoHandlersRaise : String → Option HandlerRun :=
  fun n => if n = "cmd_ping" then some { replies := [], raises := some "boom" }
    else Option.none

/-- An empty handler table (no `cmd_*` methods beyond the modelled ones). -/
def demoNoHandlers : String → Option HandlerRun := fun _ => Option.none

/-- A Redis key space holding one unrelated string key and one unrelated
hash field. -/
def demoRedis : RedisState :=
  { strings := fun k => if k = "other" then some "v" else Option.none
  , hashes := fun h f => if h = "workers" ∧ f = "other" then some "w" else Option.none }

/-- A worker state over `demoRedis` with the loop already stopped. -/
def demoWorkerSt : WorkerSt := { active := false, redis := demoRedis }

/-- A valid broadcast message for witness instantiation. -/
def demoBroadcastMsg : PubSubMsg :=
  { type := "message", channel := "rpc:worker:s"
  , data := .valid { i := "w1", c := "b:1", d := .int 1 } }

/-! # Theorems -/

/-! ## Claim C9 (corrected): Queue.clear only trims, it never pops -/

theorem aux_enumFrom_filter_le_zero {α : Type} (xs : List α) :
    ∀ k : Nat, 1 ≤ k →
      (List.enumFrom k xs).filter
        (fun p => decide ((0 : Int) ≤ (p.1 : Int)) && decide ((p.1 : Int) ≤ 0)) = [] := by
  induction xs with
  | nil => intro k _; rfl
  | cons x xs ih =>
      intro k hk
      have hk0 : ¬ ((k : Int) ≤ 0) := by exact_mod_cast by omega
      simp only [List.enumFrom, List.filter]
      have hcond : (decide ((0 : Int) ≤ (k : Int)) && decide ((k : Int) ≤ 0)) = false := by
        simp [hk0]
      rw [hcond]
      exact ih (k + 1) (by omega)

/-- Claim C9, as the code violates it: `Queue.clear` on the two-element
list `["a", "b"]` leaves `["a"]`, a non-empty list — the claimed final pop
does not exist in the code, so the list is not empty afterwards. -/
theorem spec_C9_counterexample :
    Queue.clear ["a", "b"] = ["a"] ∧ (["a"] : List String) ≠ [] := by
  exact ⟨by decide, by decide⟩

/-- Claim C9 (amended): `Queue.clear` performs only `ltrim(name, 0, 0)`,
which keeps exactly the first element: after `clear()` the list equals
`take 1` of its previous state (so a non-empty list retains its head and
is not emptied). -/
theorem spec_C9 {α : Type} (l : List α) : Queue.clear l = l.take 1 := by
  cases l with
  | nil => rfl
  | cons x xs =>
      show Queue.ltrim (x :: xs) 0 0 = [x]
      simp only [Queue.ltrim, List.enum]
      rw [show (if (0 : Int) < 0 then ((x :: xs).length : Int) + 0 else 0) = 0 by simp]
      simp only [List.enumFrom, List.filter]
      rw [show (decide ((0 : Int) ≤ ((0 : Nat) : Int)) &&
            decide (((0 : Nat) : Int) ≤ 0)) = true from by decide]
      rw [show (0 : Nat) + 1 = 1 from rfl]
      rw [aux_enumFrom_filter_le_zero xs 1 (by omega)]
      rfl

/-! ## Claim C10 (confirmed): only generator payloads stream -/

/-- Claim C10: for every payload that is not a generator instance —
lists, tuples and other values included — `Client.reply` pushes exactly one
single-shot envelope (no `z` field) onto `reply:<correlation>` and sets
the key TTL to `command_ttl`. -/
theorem spec_C10 (command_ttl : Nat) (src corr : String) (data : PyValue)
    (h : data.isGenerator = false) :
    Client.reply command_ttl src corr data =
      { key := "reply:" ++ corr
      , pushed := [{ i := src, c := corr, d := data, z := Option.none }]
      , ttlSet := command_ttl } := by
  cases data <;> simp_all [PyValue.isGenerator, Client.reply]

/-- Witness for C10 at a concrete list payload. -/
theorem spec_C10_witness :
    (PyValue.list [.int 1]).isGenerator = false ∧
      Client.reply 10 "w" "r" (.list [.int 1]) =
        { key := "reply:r"
        , pushed := [{ i := "w", c := "r", d := .list [.int 1], z := Option.none }]
        , ttlSet := 10 } :=
  ⟨rfl, spec_C10 10 "w" "r" (.list [.int 1]) rfl⟩

/-! ## Claim C3 (corrected): loop exit conditions of perform_rpc -/

/-- Claim C3, as the code violates it: observing a stream terminator does
not terminate the collection loop.  With `wait_count = 1` and a streamed
reply (element `z = 0`, then terminator `z = -1`), the loop counts two
replies, the wait-count check `2 = 1` fails, and the loop keeps popping
(`pending`) instead of finishing at the terminator. -/
theorem spec_C3_counterexample :
    rpcLoop (some 1)
      [ .delivered { i := "w", c := "r", d := .int 1, z := some 0 }
      , .delivered { i := "w", c := "r", d := .none, z := some (-1) } ] 0 =
    .pending 2 := rfl

/-- Claim C3 (amended): an iteration of the collection loop breaks exactly
when (a) the pop was empty and the deadline was reached, or (b) the pop was
empty before the deadline and `wait_count` equals the unchanged reply
count, or (c) an envelope was delivered that is not a `z ≥ 0` stream
element and `wait_count` equals the incremented reply count.  The deadline
is checked only on empty pops, a `z ≥ 0` delivery skips every check, and a
stream terminator has no dedicated exit: it terminates the loop only when
the wait-count equality happens to hold. -/
theorem spec_C3 (wc : Option Nat) (rc : Nat) (e : PopEvent) :
    ((rpcIter wc rc e).isLeft = true ↔
      e = .empty true ∨
      (e = .empty false ∧ wc = some rc) ∨
      (∃ env, e = .delivered env ∧ isStreamContinue env = false ∧
        wc = some (rc + 1))) ∧
    (∀ rest, rpcLoop wc (e :: rest) rc =
      match rpcIter wc rc e with
      | Sum.inl final => .finished final
      | Sum.inr rc' => rpcLoop wc rest rc') := by
  refine ⟨?_, fun rest => rfl⟩
  cases e with
  | delivered env =>
      cases hs : isStreamContinue env with
      | true => simp [rpcIter, hs]
      | false =>
          by_cases hw : wc = some (rc + 1)
          · simp [rpcIter, hs, hw]
          · simp [rpcIter, hs, hw]
  | empty dl =>
      cases dl with
      | true => simp [rpcIter]
      | false =>
          by_cases hw : wc = some rc <;> simp [rpcIter, hw]

/-- Witness for C3 at a concrete iteration: an empty pop before the
deadline with the wait count already satisfied breaks the loop. -/
theorem spec_C3_witness :
    (rpcIter (some 1) 1 (.empty false)).isLeft = true ∧
      rpcLoop (some 1) [.empty false] 1 =
        match rpcIter (some 1) 1 (.empty false) with
        | Sum.inl final => .finished final
        | Sum.inr rc' => rpcLoop (some 1) [] rc' :=
  ⟨(spec_C3 (some 1) 1 (.empty false)).1.mpr (Or.inr (Or.inl ⟨rfl, rfl⟩)),
   (spec_C3 (some 1) 1 (.empty false)).2 []⟩

/-! ## Claim C5 (corrected): per-source ordering -/

theorem aux_drainAux_reverse :
    ∀ (fuel : Nat) (l : List Wire), l.length ≤ fuel →
      Monitor.drainAux fuel l = l.reverse := by
  intro fuel
  induction fuel with
  | zero =>
      intro l hl
      cases l with
      | nil => rfl
      | cons x xs => simp at hl
  | succ n ih =>
      intro l hl
      cases hlast : l.getLast? with
      | none =>
          have hl0 : l = [] := by simpa using hlast
          subst hl0; rfl
      | some w =>
          have hne : l ≠ [] := by
            intro h0; subst h0; simp at hlast
          have hw : w = l.getLast hne := by
            have := List.getLast?_eq_getLast l hne
            rw [hlast] at this
            exact (Option.some.injEq _ _).mp this
          have hstep : Monitor.drainAux (n + 1) l = w :: Monitor.drainAux n l.dropLast := by
            simp [Monitor.drainAux, Monitor.brpop, hlast]
          rw [hstep, ih l.dropLast (by
            have := List.length_dropLast l
            omega)]
          conv_rhs => rw [← List.dropLast_append_getLast hne]
          rw [List.reverse_append]
          simp [hw]

theorem aux_readBroadcast_fifo (bkey : String) :
    ∀ (ms : List PubSubMsg),
      (Worker.read_broadcast_messages bkey ms).2 = Option.none →
      (Worker.read_broadcast_messages bkey ms).1 =
        ms.filterMap (broadcastFilter bkey) := by
  intro ms
  induction ms with
  | nil => intro _; rfl
  | cons m rest ih =>
      intro h
      by_cases h1 : m.type = "subscribe"
      · have h2 : ¬ (m.type = "message" ∧ m.channel = bkey) := by simp [h1]
        simp only [Worker.read_broadcast_messages, if_pos h1] at h ⊢
        rw [List.filterMap_cons, show broadcastFilter bkey m = Option.none from
          by simp [broadcastFilter, h2]]
        exact ih h
      · by_cases h2 : m.type = "message" ∧ m.channel = bkey
        · cases hd : decodeWire m.data with
          | none =>
              simp only [Worker.read_broadcast_messages, if_neg h1, if_pos h2, hd] at h
              simp at h
          | some e =>
              simp only [Worker.read_broadcast_messages, if_neg h1, if_pos h2, hd] at h ⊢
              rw [List.filterMap_cons, show broadcastFilter bkey m = some e from
                by simp [broadcastFilter, h2, hd]]
              exact congrArg (e :: ·) (ih h)
        · simp only [Worker.read_broadcast_messages, if_neg h1, if_neg h2] at h ⊢
          rw [List.filterMap_cons, show broadcastFilter bkey m = Option.none from
            by simp [broadcastFilter, h2]]
          exact ih h

/-- Claim C5, as the code violates it: requests are pushed with RPUSH but
the Monitor drains with BRPOP, so after pushing the envelope with
correlation `a` and then the one with correlation `b` onto one request
key, the worker observes them as `[b, a]` — not the FIFO push order. -/
theorem spec_C5_counterexample :
    Monitor.drainOrder
        (Queue.push (Queue.push [] (.valid { i := "", c := "a", d := .none }))
          (.valid { i := "", c := "b", d := .none })) =
      [ .valid { i := "", c := "b", d := .none }
      , .valid { i := "", c := "a", d := .none } ] ∧
    ([ Wire.valid { i := "", c := "b", d := .none }
     , Wire.valid { i := "", c := "a", d := .none } ] ≠
     [ Wire.valid { i := "", c := "a", d := .none }
     , Wire.valid { i := "", c := "b", d := .none } ]) :=
  ⟨rfl, by simp⟩

/-- Claim C5 (amended): the broadcast channel is observed in publish
(FIFO) order — the read loop dispatches exactly the channel's `message`
entries in arrival order — but a request key is observed in LIFO order:
the Monitor's BRPOP against the clients' RPUSH drains a request list in
the reverse of push order. -/
theorem spec_C5 (l : List Wire) (bkey : String) (ms : List PubSubMsg)
    (h : (Worker.read_broadcast_messages bkey ms).2 = Option.none) :
    Monitor.drainOrder l = l.reverse ∧
    (Worker.read_broadcast_messages bkey ms).1 =
      ms.filterMap (broadcastFilter bkey) :=
  ⟨aux_drainAux_reverse l.length l le_rfl, aux_readBroadcast_fifo bkey ms h⟩

/-- Witness for C5 at a concrete queue state and broadcast backlog. -/
theorem spec_C5_witness :
    (Worker.read_broadcast_messages "rpc:worker:s" [demoBroadcastMsg]).2 =
      Option.none ∧
    Monitor.drainOrder [Wire.malformed "x"] = [Wire.malformed "x"].reverse ∧
    (Worker.read_broadcast_messages "rpc:worker:s" [demoBroadcastMsg]).1 =
      [demoBroadcastMsg].filterMap (broadcastFilter "rpc:worker:s") :=
  ⟨rfl, spec_C5 [Wire.malformed "x"] "rpc:worker:s" [demoBroadcastMsg] rfl⟩

/-! ## Claim C4 (corrected): malformed JSON handling per consumer -/

theorem aux_threadDecode_sources :
    ∀ (ws : List Wire) (e : Envelope), e ∈ (Monitor.threadDecode ws).1 →
      Wire.valid e ∈ ws := by
  intro ws
  induction ws with
  | nil => intro e he; simp [Monitor.threadDecode] at he
  | cons w rest ih =>
      intro e he
      cases w with
      | valid e0 =>
          simp only [Monitor.threadDecode, decodeWire, List.mem_cons] at he
          cases he with
          | inl h0 => subst h0; exact List.mem_cons_self _ _
          | inr h0 => exact List.mem_cons_of_mem _ (ih e h0)
      | malformed s => simp [Monitor.threadDecode, decodeWire] at he

theorem aux_readBroadcast_sources (bkey : String) :
    ∀ (ms : List PubSubMsg) (e : Envelope),
      e ∈ (Worker.read_broadcast_messages bkey ms).1 →
      ∃ m ∈ ms, m.data = Wire.valid e := by
  intro ms
  induction ms with
  | nil => intro e he; simp [Worker.read_broadcast_messages] at he
  | cons m rest ih =>
      intro e he
      by_cases h1 : m.type = "subscribe"
      · simp only [Worker.read_broadcast_messages, if_pos h1] at he
        obtain ⟨m0, hm0, hd0⟩ := ih e he
        exact ⟨m0, List.mem_cons_of_mem _ hm0, hd0⟩
      · by_cases h2 : m.type = "message" ∧ m.channel = bkey
        · cases hd : m.data with
          | valid e0 =>
              simp only [Worker.read_broadcast_messages, if_neg h1, if_pos h2, hd,
                decodeWire, List.mem_cons] at he
              cases he with
              | inl h0 => exact ⟨m, List.mem_cons_self _ _, by rw [hd, h0]⟩
              | inr h0 =>
                  obtain ⟨m0, hm0, hd0⟩ := ih e h0
                  exact ⟨m0, List.mem_cons_of_mem _ hm0, hd0⟩
          | malformed s =>
              simp [Worker.read_broadcast_messages, if_neg h1, if_pos h2, hd,
                decodeWire] at he
        · simp only [Worker.read_broadcast_messages, if_neg h1, if_neg h2] at he
          obtain ⟨m0, hm0, hd0⟩ := ih e he
          exact ⟨m0, List.mem_cons_of_mem _ hm0, hd0⟩

/-- Claim C4, as the code violates it: a malformed element does not leave
the consuming loops running.  The Monitor thread (which drains with BRPOP,
so the right-most element first) decodes with no exception handler: on the
malformed element it dies, and the valid envelope still sitting in the
list is never delivered.  The broadcast read loop likewise re-raises the
decode failure and never processes the following valid message. -/
theorem spec_C4_counterexample :
    Monitor.thread [ .valid { i := "w1", c := "a", d := .none }, .malformed "x" ] =
      ([], some "JSONDecodeError") ∧
    Worker.read_broadcast_messages "rpc:worker:s"
      [ { type := "message", channel := "rpc:worker:s", data := .malformed "x" }
      , demoBroadcastMsg ] = ([], some "JSONDecodeError") :=
  ⟨rfl, rfl⟩

/-- Claim C4 (amended): a malformed element never reaches a command
handler, and `Queue.pop` swallows the decode failure (returns null with
the queue still active/usable); but the other two consumers do not
survive it: the Monitor thread's unguarded decode terminates the thread at
the first malformed element, and the worker's broadcast read loop logs and
re-raises the decode failure, ending the loop. -/
theorem spec_C4 (active : Bool) (s : String) (rest : List Wire)
    (bkey : String) (rest2 : List PubSubMsg) :
    Queue.pop active (.item (.malformed s)) = (Option.none, active) ∧
    Monitor.threadDecode (.malformed s :: rest) = ([], some "JSONDecodeError") ∧
    (∀ ws e, e ∈ (Monitor.threadDecode ws).1 → Wire.valid e ∈ ws) ∧
    Worker.read_broadcast_messages bkey
        ({ type := "message", channel := bkey, data := .malformed s } :: rest2) =
      ([], some "JSONDecodeError") ∧
    (∀ ms e, e ∈ (Worker.read_broadcast_messages bkey ms).1 →
      ∃ m ∈ ms, m.data = Wire.valid e) := by
  refine ⟨rfl, rfl, aux_threadDecode_sources, ?_, aux_readBroadcast_sources bkey⟩
  simp [Worker.read_broadcast_messages, decodeWire]

/-- Witness for C4 at concrete inputs. -/
theorem spec_C4_witness :
    Queue.pop true (.item (.malformed "oops")) = (Option.none, true) ∧
    Monitor.threadDecode [Wire.malformed "oops"] = ([], some "JSONDecodeError") :=
  ⟨(spec_C4 true "oops" [] "b" []).1, (spec_C4 true "oops" [] "b" []).2.1⟩

/-! ## Claim C2 (confirmed): streamed replies -/

theorem aux_replyStreamLoop_len (src corr : String) :
    ∀ (elems : List PyValue) (k : Nat),
      (Client.replyStreamLoop src corr elems k).1.length = elems.length := by
  intro elems
  induction elems with
  | nil => intro k; rfl
  | cons e rest ih => intro k; simp [Client.replyStreamLoop, ih]

theorem aux_replyStreamLoop_snd (src corr : String) :
    ∀ (elems : List PyValue) (k : Nat),
      (Client.replyStreamLoop src corr elems k).2 = k + elems.length := by
  intro elems
  induction elems with
  | nil => intro k; simp [Client.replyStreamLoop]
  | cons e rest ih =>
      intro k
      simp only [Client.replyStreamLoop, ih, List.length_cons]
      omega

theorem aux_replyStreamLoop_get (src corr : String) :
    ∀ (elems : List PyValue) (k j : Nat) (dj : PyValue), elems[j]? = some dj →
      (Client.replyStreamLoop src corr elems k).1[j]? =
        some { i := src, c := corr, d := dj, z := some ((k + j : Nat) : Int) } := by
  intro elems
  induction elems with
  | nil => intro k j dj h; simp at h
  | cons e rest ih =>
      intro k j dj h
      cases j with
      | zero =>
          simp only [List.getElem?_cons_zero, Option.some.injEq] at h
          subst h
          simp [Client.replyStreamLoop]
      | succ j2 =>
          have h2 : rest[j2]? = some dj := by simpa using h
          have hih := ih (k + 1) j2 dj h2
          simp only [Client.replyStreamLoop]
          rw [List.getElem?_cons_succ]
          rw [show k + (j2 + 1) = k + 1 + j2 from by omega]
          exact hih

/-- Claim C2: `Client.reply` on a generator payload of `n` elements pushes
`n + 1` envelopes onto `reply:<correlation>` in order — the `k`-th element
envelope carries stream counter `z = k` (monotonically increasing), and the
last envelope is a terminator with `z = -1` and null data — then sets the
reply key TTL to `max(command_ttl * n, 300)`. -/
theorem spec_C2 (command_ttl : Nat) (src corr : String) (elems : List PyValue) :
    (Client.reply command_ttl src corr (.gen elems)).key = "reply:" ++ corr ∧
    (Client.reply command_ttl src corr (.gen elems)).pushed.length =
      elems.length + 1 ∧
    (∀ (k : Nat) (dk : PyValue), elems[k]? = some dk →
      (Client.reply command_ttl src corr (.gen elems)).pushed[k]? =
        some { i := src, c := corr, d := dk, z := some (k : Int) }) ∧
    (Client.reply command_ttl src corr (.gen elems)).pushed[elems.length]? =
      some { i := src, c := corr, d := .none, z := some (-1) } ∧
    (Client.reply command_ttl src corr (.gen elems)).ttlSet =
      max (command_ttl * elems.length) 300 := by
  refine ⟨rfl, ?_, ?_, ?_, ?_⟩
  · simp [Client.reply, aux_replyStreamLoop_len]
  · intro k dk h
    have hk : k < elems.length := by
      cases hlt : decide (k < elems.length) with
      | true => exact of_decide_eq_true hlt
      | false =>
          rw [List.getElem?_eq_none (by
            have := of_decide_eq_false hlt
            omega)] at h
          cases h
    simp only [Client.reply]
    rw [List.getElem?_append, if_pos (by rw [aux_replyStreamLoop_len]; exact hk)]
    have hget := aux_replyStreamLoop_get src corr elems 0 k dk h
    simpa using hget
  · simp only [Client.reply]
    rw [List.getElem?_append, if_neg (by rw [aux_replyStreamLoop_len]; omega)]
    rw [aux_replyStreamLoop_len]
    simp
  · simp [Client.reply, aux_replyStreamLoop_snd]

/-- Witness for C2 at a two-element generator payload. -/
theorem spec_C2_witness :
    (Client.reply 10 "w" "r" (.gen [.int 7, .int 8])).pushed.length = 2 + 1 ∧
    (Client.reply 10 "w" "r" (.gen [.int 7, .int 8])).pushed[1]? =
      some { i := "w", c := "r", d := .int 8, z := some 1 } ∧
    (Client.reply 10 "w" "r" (.gen [.int 7, .int 8])).pushed[2]? =
      some { i := "w", c := "r", d := .none, z := some (-1) } ∧
    (Client.reply 10 "w" "r" (.gen [.int 7, .int 8])).ttlSet = max (10 * 2) 300 :=
  ⟨(spec_C2 10 "w" "r" [.int 7, .int 8]).2.1,
   (spec_C2 10 "w" "r" [.int 7, .int 8]).2.2.1 1 (.int 8) rfl,
   (spec_C2 10 "w" "r" [.int 7, .int 8]).2.2.2.1,
   (spec_C2 10 "w" "r" [.int 7, .int 8]).2.2.2.2⟩

/-! ## Claim C1 (confirmed): exactly one terminal reply when the handler did not reply -/

/-- Claim C1: for every dispatched envelope carrying a correlation id, if
the invoked handler returns without raising and without calling any
`reply*` method, `process_message` pushes exactly one reply envelope whose
data is `dict(success=True, msg="OK")`; and if dispatch fails — missing
handler, or handler exception with no reply sent — exactly one failure
reply is pushed instead. -/
theorem spec_C1 (handlers : String → Option HandlerRun)
    (clsName attrErrMsg : String) (command_ttl : Nat) (wid cmd corr : String) :
    (∀ run, handlers ("cmd_" ++ cmd) = some run → run.raises = Option.none →
      run.replies = [] →
      (Worker.process_message handlers clsName attrErrMsg command_ttl wid cmd
          corr).pushes =
        [{ i := wid, c := corr
         , d := .dict [("success", .bool true), ("msg", .str "OK")] }]) ∧
    (handlers ("cmd_" ++ cmd) = Option.none →
      ∃ m, (Worker.process_message handlers clsName attrErrMsg command_ttl wid cmd
          corr).pushes =
        [{ i := wid, c := corr
         , d := .dict [("success", .bool false), ("msg", .str m)] }]) ∧
    (∀ run excMsg, handlers ("cmd_" ++ cmd) = some run → run.raises = some excMsg →
      run.replies = [] →
      ∃ m, (Worker.process_message handlers clsName attrErrMsg command_ttl wid cmd
          corr).pushes =
        [{ i := wid, c := corr
         , d := .dict [("success", .bool false), ("msg", .str m)] }]) := by
  refine ⟨?_, ?_, ?_⟩
  · intro run hrun hraise hrep
    simp [Worker.process_message, hrun, hraise, hrep, handlerPushes,
      CommandContext.replyPayload, dictUpdate, Client.reply]
  · intro hnone
    refine ⟨Worker.unknownCommandMsg ("cmd_" ++ cmd) clsName attrErrMsg, ?_⟩
    simp [Worker.process_message, hnone, CommandContext.replyPayload, Client.reply]
  · intro run excMsg hrun hraise hrep
    refine ⟨Worker.execExceptionMsg ("cmd_" ++ cmd) clsName excMsg, ?_⟩
    simp [Worker.process_message, hrun, hraise, hrep, handlerPushes,
      CommandContext.replyPayload, Client.reply]

/-- Witness for C1: a handler that returns silently yields the one
auto-success envelope; a handler that raises without replying yields one
failure envelope. -/
theorem spec_C1_witness :
    (Worker.process_message demoHandlers "Worker" "err" 10 "wid" "ping"
        "corr").pushes =
      [{ i := "wid", c := "corr"
       , d := .dict [("success", .bool true), ("msg", .str "OK")] }] ∧
    (∃ m, (Worker.process_message demoHandlersRaise "Worker" "err" 10 "wid" "ping"
        "corr").pushes =
      [{ i := "wid", c := "corr"
       , d := .dict [("success", .bool false), ("msg", .str m)] }]) :=
  ⟨(spec_C1 demoHandlers "Worker" "err" 10 "wid" "ping" "corr").1
      { replies := [], raises := Option.none } rfl rfl rfl,
   (spec_C1 demoHandlersRaise "Worker" "err" 10 "wid" "ping" "corr").2.2
      { replies := [], raises := some "boom" } "boom" rfl rfl rfl⟩

/-! ## Claim C8 (confirmed): unknown-command failure reply -/

/-- Claim C8: when no `cmd_<x>` handler exists, `process_message` pushes
exactly one failure reply whose data is `dict(success=False, msg=m)` with
`m` starting with `Unknown command function 'cmd_<x>'`, and logs the
failure message. -/
theorem spec_C8 (handlers : String → Option HandlerRun)
    (clsName attrErrMsg : String) (command_ttl : Nat) (wid cmd corr : String)
    (h : handlers ("cmd_" ++ cmd) = Option.none) :
    ∃ m,
      (Worker.process_message handlers clsName attrErrMsg command_ttl wid cmd
          corr).pushes =
        [{ i := wid, c := corr
         , d := .dict [("success", .bool false), ("msg", .str m)] }] ∧
      (∃ t, m = "Unknown command function " ++ sq ++ "cmd_" ++ cmd ++ sq ++ t) ∧
      m ∈ (Worker.process_message handlers clsName attrErrMsg command_ttl wid cmd
          corr).logs := by
  refine ⟨Worker.unknownCommandMsg ("cmd_" ++ cmd) clsName attrErrMsg, ?_, ?_, ?_⟩
  · simp [Worker.process_message, h, CommandContext.replyPayload, Client.reply]
  · exact ⟨" for worker " ++ sq ++ clsName ++ sq ++ " (" ++ attrErrMsg ++ ")",
      by simp [Worker.unknownCommandMsg, String.append_assoc]⟩
  · simp [Worker.process_message, h]

/-- Witness for C8: direct call of `no_such` against an empty handler
table. -/
theorem spec_C8_witness :
    ∃ m,
      (Worker.process_message demoNoHandlers "Worker" "err" 10 "wid" "no_such"
          "corr").pushes =
        [{ i := "wid", c := "corr"
         , d := .dict [("success", .bool false), ("msg", .str m)] }] ∧
      (∃ t, m = "Unknown command function " ++ sq ++ "cmd_" ++ "no_such" ++ sq ++ t) ∧
      m ∈ (Worker.process_message demoNoHandlers "Worker" "err" 10 "wid" "no_such"
          "corr").logs :=
  spec_C8 demoNoHandlers "Worker" "err" 10 "wid" "no_such" "corr" rfl

/-! ## Claim C6 (confirmed): wait counts of the four request modes -/

theorem aux_multicastLoop (command_ttl : Nat) (src cmd : String) (data : PyValue)
    (cid : String) :
    ∀ (keys : List String) (count : Nat),
      (Client.multicastLoop command_ttl src cmd data cid keys count).1 =
        keys.map (multicastPush src cmd data cid) ∧
      (Client.multicastLoop command_ttl src cmd data cid keys count).2.2 =
        count + keys.length := by
  intro keys
  induction keys with
  | nil => intro count; exact ⟨rfl, by simp [Client.multicastLoop]⟩
  | cons key rest ih =>
      intro count
      constructor
      · simp only [Client.multicastLoop, List.map_cons]
        rw [(ih (count + 1)).1]
        rfl
      · simp only [Client.multicastLoop, List.length_cons]
        rw [(ih (count + 1)).2]
        omega

/-- Claim C6: `call_direct` and `call_group` return the reply queue for
the correlation id and `wait_count = 1`; `broadcast` returns
`wait_count = None`; `multicast` returns `wait_count = n` where `n` is the
number of presence keys matched by the scan, and performs exactly one
direct push per matching presence key, all pushes carrying the same
correlation id. -/
theorem spec_C6 (command_ttl : Nat) (src dst site worker_type cmd : String)
    (data : PyValue) (cid : String) (scanKeys : List String) :
    (Client.call_direct command_ttl src dst cmd data cid).replyKey =
      "reply:" ++ cid ∧
    (Client.call_direct command_ttl src dst cmd data cid).waitCount = some 1 ∧
    (Client.call_group command_ttl src site worker_type cmd data cid).replyKey =
      "reply:" ++ cid ∧
    (Client.call_group command_ttl src site worker_type cmd data cid).waitCount =
      some 1 ∧
    (Client.broadcast site src cmd data cid).replyKey = "reply:" ++ cid ∧
    (Client.broadcast site src cmd data cid).waitCount = Option.none ∧
    (Client.multicast command_ttl src cmd data cid scanKeys).replyKey =
      "reply:" ++ cid ∧
    (Client.multicast command_ttl src cmd data cid scanKeys).waitCount =
      some scanKeys.length ∧
    (Client.multicast command_ttl src cmd data cid scanKeys).pushes =
      scanKeys.map (multicastPush src cmd data cid) := by
  refine ⟨rfl, rfl, rfl, rfl, rfl, rfl, rfl, ?_, ?_⟩
  · simp only [Client.multicast]
    rw [(aux_multicastLoop command_ttl src cmd data cid scanKeys 0).2]
    simp
  · simp only [Client.multicast]
    exact (aux_multicastLoop command_ttl src cmd data cid scanKeys 0).1

/-! ## Claim C7 (confirmed): graceful shutdown removes exactly the presence records -/

/-- Claim C7: after the worker loop exits, both presence records are
removed — the `worker:<site>:<type>:<id>` string key is deleted and the
`workers` hash field of that name is gone — the delete path formats its
key identically to the write path, and the removal modifies nothing else
in Redis (all other string keys and hash fields keep the value they had
when the loop finished). -/
theorem spec_C7 (site ty id : String) (tick : WorkerSt → WorkerSt) (fuel : Nat)
    (w : WorkerSt) :
    (Worker.loop site ty id tick fuel w).redis.strings
        (Worker.updateKeyString site ty id) = Option.none ∧
    (Worker.loop site ty id tick fuel w).redis.hashes g_workers_key
        (Worker.updateKeyString site ty id) = Option.none ∧
    Worker.removeKeyString site ty id = Worker.updateKeyString site ty id ∧
    (∀ k, k ≠ Worker.removeKeyString site ty id →
      (Worker.loop site ty id tick fuel w).redis.strings k =
        (Worker.loopRun tick fuel w).redis.strings k) ∧
    (∀ hk f, ¬ (hk = g_workers_key ∧ f = Worker.removeKeyString site ty id) →
      (Worker.loop site ty id tick fuel w).redis.hashes hk f =
        (Worker.loopRun tick fuel w).redis.hashes hk f) ∧
    (Worker.loop site ty id tick fuel w).active =
      (Worker.loopRun tick fuel w).active := by
  refine ⟨?_, ?_, rfl, ?_, ?_, rfl⟩
  · simp [Worker.loop, Worker.remove_worker_info_key, RedisState.del,
      RedisState.hdel, Worker.removeKeyString, Worker.updateKeyString]
  · simp [Worker.loop, Worker.remove_worker_info_key, RedisState.del,
      RedisState.hdel, Worker.removeKeyString, Worker.updateKeyString]
  · intro k hk
    simp [Worker.loop, Worker.remove_worker_info_key, RedisState.del,
      RedisState.hdel, hk]
  · intro hk f hnk
    simp [Worker.loop, Worker.remove_worker_info_key, RedisState.del,
      RedisState.hdel, hnk]

/-- Witness for C7 on a concrete key space holding one unrelated string
key and one unrelated hash field. -/
theorem spec_C7_witness :
    (Worker.loop "s" "t" "i" id 0 demoWorkerSt).redis.strings
        (Worker.updateKeyString "s" "t" "i") = Option.none ∧
    (Worker.loop "s" "t" "i" id 0 demoWorkerSt).redis.strings "other" =
      (Worker.loopRun id 0 demoWorkerSt).redis.strings "other" ∧
    (Worker.loop "s" "t" "i" id 0 demoWorkerSt).redis.hashes "workers" "other" =
      (Worker.loopRun id 0 demoWorkerSt).redis.hashes "workers" "other" :=
  ⟨(spec_C7 "s" "t" "i" id 0 demoWorkerSt).1,
   (spec_C7 "s" "t" "i" id 0 demoWorkerSt).2.2.2.1 "other" (by decide),
   (spec_C7 "s" "t" "i" id 0 demoWorkerSt).2.2.2.2.1 "workers" "other" (by decide)⟩

end RedisBus
